import Mathlib

/-!
Verification development for the Voice Activity Capture Core of a
browser-based speech-to-speech translation app.

The embedding models the React hook in src/hooks/use-audio.ts as an explicit
state machine.  Mutable refs and useState cells become fields of a
`SessionState` record; each callback (cleanup, recorder.onstop,
recorder.onerror, startRecording, stopRecording, detectSilence, the silence
setTimeout callback, startListening, stopListening) becomes a function from
`SessionState` to `SessionState` together with its externally visible
effects.  Asynchronous recorder finalisation (MediaRecorder.stop followed by
the onstop event) is modelled both as the bare stop step and as a composite
that runs the onstop handler, matching the cooperative single-threaded model
of the source.  The byte contents of audio chunks are abstracted to their
sizes (`List Nat`), which is all the code under verification inspects.
-/

/-- State of the capture session.  Fields mirror, in order: the
`isListening` / `isRecording` useState cells, the `isProcessingRef`,
presence of `streamRef` / `audioContextRef` / `analyserRef`, whether the
audio context is suspended, presence of a `mediaRecorder` (the useState
cell) and whether that recorder is in a non-inactive state, presence of a
pending `silenceTimeoutRef`, and the sizes of the blobs accumulated in
`audioChunksRef`. -/
structure SessionState where
  isListening : Bool
  isRecording : Bool
  isProcessing : Bool
  hasStream : Bool
  hasContext : Bool
  hasAnalyser : Bool
  contextSuspended : Bool
  hasRecorder : Bool
  recorderActive : Bool
  silenceTimer : Bool
  chunks : List Nat
deriving DecidableEq, Repr

/-- Initial state: no resources acquired, nothing recording. -/
def initState : SessionState :=
  { isListening := false, isRecording := false, isProcessing := false,
    hasStream := false, hasContext := false, hasAnalyser := false,
    contextSuspended := false, hasRecorder := false, recorderActive := false,
    silenceTimer := false, chunks := [] }

/-- The `cleanup(fullCleanup)` callback (use-audio.ts lines 26-59): always
clears the silence timeout and the recording state (recording flag,
recorder cell, chunk buffer, processing flag); with `full = true` it also
closes the audio context, stops and drops the stream tracks and drops the
analyser. -/
def cleanup (full : Bool) (s : SessionState) : SessionState :=
  let s1 := { s with silenceTimer := false }
  let s2 :=
    if full then
      { s1 with hasContext := false, contextSuspended := false,
                hasStream := false, hasAnalyser := false }
    else s1
  { s2 with isRecording := false, hasRecorder := false,
            recorderActive := false, chunks := [], isProcessing := false }

/-- The `recorder.onstop` handler (lines 129-151): clears the recording
flag; if any chunks were accumulated it builds one blob from them and
invokes the Segment Consumer callback `onRecordingComplete` with it (the
returned `some size` is that invocation, carrying the blob byte size),
otherwise only logs; finally runs partial cleanup.  There is no size
threshold here: every nonempty segment is forwarded. -/
def onstop (s : SessionState) : SessionState × Option Nat :=
  let s1 := { s with isRecording := false }
  if s1.chunks.length > 0 then
    (cleanup false { s1 with chunks := [] }, some s1.chunks.sum)
  else
    (cleanup false s1, none)

/-- The `recorder.onerror` handler (lines 153-156): logs the event and runs
full cleanup.  The returned Bool records whether the error is propagated to
the caller of the hook; the handler only calls console.error, so it is
always `false` (acquisition errors, by contrast, are thrown from
startRecording / startListening). -/
def onerror (s : SessionState) : SessionState × Bool :=
  (cleanup true s, false)

/-- The `startRecording` callback (lines 81-170), success path: no-op when
already processing or recording; otherwise acquires the stream, audio
context and analyser if any is missing (the returned Bool records whether
`getUserMedia` was called, i.e. device permission requested), then creates
and starts a MediaRecorder and sets the recording flag.  The processing
flag is raised and lowered within the call, so its net value is false. -/
def startRecording (s : SessionState) : SessionState × Bool :=
  if s.isProcessing || s.isRecording then (s, false)
  else
    let needSetup := !s.hasStream || !s.hasContext || !s.hasAnalyser
    let s1 :=
      if needSetup then
        { s with hasStream := true, hasContext := true, hasAnalyser := true,
                 contextSuspended := false }
      else s
    ({ s1 with hasRecorder := true, recorderActive := true,
               isRecording := true, isProcessing := false }, needSetup)

/-- The `stopRecording` callback (lines 172-190), up to but not including
the asynchronous onstop event: no-op while already processing a stop;
if a non-inactive recorder exists, raises the processing flag and calls
`MediaRecorder.stop()` (recorder becomes inactive; the returned Bool
records that a stop, and hence a later onstop event, was issued);
otherwise runs partial cleanup. -/
def stopRecordingStep (s : SessionState) : SessionState × Bool :=
  if s.isProcessing then (s, false)
  else if s.hasRecorder && s.recorderActive then
    ({ s with isProcessing := true, recorderActive := false }, true)
  else
    (cleanup false s, false)

/-- `stopRecording` together with the onstop event it triggers, run to
completion as one cooperative step.  Returns the Segment Consumer
invocation, if any. -/
def stopRecordingSync (s : SessionState) : SessionState × Option Nat :=
  let p := stopRecordingStep s
  if p.2 then onstop p.1 else (p.1, none)

/-- The silence setTimeout callback (lines 213-218) together with the stop
it triggers: fires only while a timer is pending; if still recording it
calls stopRecording (run here with its onstop, as one cooperative step). -/
def fireSilenceTimer (s : SessionState) : SessionState × Option Nat :=
  if s.silenceTimer && s.isRecording then stopRecordingSync s
  else (s, none)

/-- The `detectSilence` gate tick (lines 196-232): returns unchanged when
the analyser is missing or the session is not listening.  With the current
reading strictly below the threshold it starts a silence timer if none is
pending and a recording is active; otherwise (reading at or above
threshold, the voice branch) it cancels any pending timer and, when not
recording while listening, invokes startRecording.  The returned Bool
records whether startRecording was invoked. -/
def detectSilence (threshold dB : ℚ) (s : SessionState) : SessionState × Bool :=
  if !s.hasAnalyser || !s.isListening then (s, false)
  else if dB < threshold then
    if !s.silenceTimer && s.isRecording then
      ({ s with silenceTimer := true }, false)
    else (s, false)
  else
    let s1 := { s with silenceTimer := false }
    if !s1.isRecording && s1.isListening then ((startRecording s1).1, true)
    else (s1, false)

/-- The `startListening` callback (lines 256-309), success path: if the
stream, context or analyser is missing, acquires them via `getUserMedia`
(the returned Bool records that permission was requested) and builds the
analysis path; otherwise resumes the audio context when it was suspended.
Finally sets the listening flag. -/
def startListening (s : SessionState) : SessionState × Bool :=
  if !s.hasStream || !s.hasContext || !s.hasAnalyser then
    ({ s with hasStream := true, hasContext := true, hasAnalyser := true,
              contextSuspended := false, isListening := true }, true)
  else
    let s1 := if s.contextSuspended then { s with contextSuspended := false } else s
    ({ s1 with isListening := true }, false)

/-- The `stopListening` callback (lines 311-343), up to but not including
the asynchronous onstop event: if a recording is in progress on a
non-inactive recorder, calls `MediaRecorder.stop()` directly (the returned
Bool records that an onstop event was issued); then clears the listening
flag (stopping the monitoring loop), suspends the audio context when one
exists (resources are retained, not released), and clears any pending
silence timer. -/
def stopListening (s : SessionState) : SessionState × Bool :=
  let p :=
    if s.isRecording && s.hasRecorder && s.recorderActive then
      ({ s with recorderActive := false }, true)
    else (s, false)
  let s2 := { p.1 with isListening := false }
  let s3 := if s2.hasContext then { s2 with contextSuspended := true } else s2
  ({ s3 with silenceTimer := false }, p.2)

/-- `stopListening` together with the onstop event it may trigger, run to
completion as one cooperative step. -/
def stopListeningSync (s : SessionState) : SessionState × Option Nat :=
  let p := stopListening s
  if p.2 then onstop p.1 else (p.1, none)

/-- Public operations and internally scheduled events that drive the
session, for reachability statements.  `tick` is one monitoring-loop
evaluation of detectSilence at the given reading. -/
inductive Op where
  | tick (dB : ℚ)
  | timerFires
  | pressStartRecording
  | pressStopRecording
  | pressStartListening
  | pressStopListening
deriving DecidableEq, Repr

/-- One step of the session under an operation, at a fixed threshold. -/
def step (threshold : ℚ) (s : SessionState) : Op → SessionState
  | .tick dB => (detectSilence threshold dB s).1
  | .timerFires => (fireSilenceTimer s).1
  | .pressStartRecording => (startRecording s).1
  | .pressStopRecording => (stopRecordingSync s).1
  | .pressStartListening => (startListening s).1
  | .pressStopListening => (stopListeningSync s).1

/-- Run a sequence of operations from a state. -/
def runOps (threshold : ℚ) (s : SessionState) (ops : List Op) : SessionState :=
  ops.foldl (step threshold) s

/-- Run a sequence of gate ticks at the given readings. -/
def runTicks (threshold : ℚ) (s : SessionState) (readings : List ℚ) : SessionState :=
  readings.foldl (fun t dB => (detectSilence threshold dB t).1) s

/-- The consumer-side size filter in `processAudio` (src/unnamed/part_001):
returns whether the received blob proceeds to downstream transcription.  It
returns early (false) when a previous segment is still processing or when
the blob is smaller than 15000 bytes (roughly 0.5s of audio at 128 kbps). -/
def processAudio (processing : Bool) (size : Nat) : Bool :=
  if processing then false
  else if size < 15000 then false
  else true

/-- The three tunable voice-detection parameters supplied by the settings
component (src/unnamed/part_000). -/
structure VoiceSettings where
  silenceThreshold : ℚ
  silenceTimeout : ℚ
  smoothingTimeConstant : ℚ
deriving DecidableEq, Repr

/-- The Coffee Shop environment preset from src/unnamed/part_000. -/
def moderatePreset : VoiceSettings :=
  { silenceThreshold := -30, silenceTimeout := 1000, smoothingTimeConstant := 92/100 }

/-- Configuration written onto the AnalyserNode. -/
structure AnalyserConfig where
  fftSize : ℕ
  minDecibels : ℚ
  maxDecibels : ℚ
  smoothingTimeConstant : ℚ
deriving DecidableEq, Repr

/-- Analyser configuration as performed by the hook (lines 104-108 and
281-285): every field is a hard-coded literal; in particular the smoothing
time constant is always 0.85, regardless of the settings in force (the
props interface of the hook does not even declare a smoothing field). -/
def configureAnalyser (_settings : VoiceSettings) : AnalyserConfig :=
  { fftSize := 2048, minDecibels := -90, maxDecibels := -10,
    smoothingTimeConstant := 85/100 }

/-- Mean of a frame of byte frequency samples (line 203). -/
def frameAverage (frame : List ℕ) : ℚ :=
  (frame.sum : ℚ) / (frame.length : ℚ)

/-- The defined part of the loudness computation (line 204): the argument
`average / 255` handed to log10, or `none` when the average is 0, in which
case JavaScript Math.log10 yields negative infinity (the source applies no
clamp). -/
def loudnessRatio (frame : List ℕ) : Option ℚ :=
  if frameAverage frame = 0 then none else some (frameAverage frame / 255)

/-- The loudness estimate `dB = 20 * log10(average / 255)` of line 204,
over the reals; `none` models the negative infinity produced by
Math.log10(0).  Noncomputable only because of the real logarithm; the
case distinction is the computable `loudnessRatio`. -/
noncomputable def loudnessDb (frame : List ℕ) : Option ℝ :=
  (loudnessRatio frame).map (fun r => 20 * Real.logb 10 (r : ℝ))

/-- A state in the middle of a recording with one 100-byte chunk buffered:
listening, recording, all resources live, recorder active, no pending
timer. -/
def recordingState : SessionState :=
  { isListening := true, isRecording := true, isProcessing := false,
    hasStream := true, hasContext := true, hasAnalyser := true,
    contextSuspended := false, hasRecorder := true, recorderActive := true,
    silenceTimer := false, chunks := [100] }

/-- A listening state with no active recording (the Armed state of the
spec). -/
def armedState : SessionState :=
  { isListening := true, isRecording := false, isProcessing := false,
    hasStream := true, hasContext := true, hasAnalyser := true,
    contextSuspended := false, hasRecorder := false, recorderActive := false,
    silenceTimer := false, chunks := [] }

/-- A recording state whose buffer is still empty. -/
def recordingEmptyState : SessionState :=
  { recordingState with chunks := [] }

/-- Strengthened session invariant: whenever the recording flag is set, the
session is listening, a recorder exists and is active, and no stop is being
processed.  The listening conjunct is the invariant of the spec; the other
conjuncts are what make it inductive over gate-driven operation
sequences. -/
def SessInv (s : SessionState) : Prop :=
  s.isRecording = true →
    s.isListening = true ∧ s.hasRecorder = true ∧ s.recorderActive = true ∧
    s.isProcessing = false

/-! ## Claim C1: degenerate-segment filtering -/

/-- C1 counterexample: a recording cycle finalizing with a single 100-byte
chunk is far below the 15000-byte minimum viable-speech threshold, yet the
onstop handler of the capture hook still invokes the Segment Consumer
callback with the 100-byte blob — the controller does not discard it. -/
theorem c1_counterexample :
    (onstop recordingState).2 = some 100 ∧ 100 < 15000 := by
  exact ⟨by decide, by decide⟩

/-- C1 (amended): the capture hook forwards every segment with a nonempty
chunk buffer to the Segment Consumer callback regardless of its size; the
below-15000-bytes filter lives inside the consumer itself (processAudio),
which returns before any downstream processing for such blobs. -/
theorem c1_amended_size_filter_in_consumer (s : SessionState) (p : Bool) (n : ℕ)
    (hc : s.chunks ≠ []) (hn : n < 15000) :
    (onstop s).2 = some s.chunks.sum ∧ processAudio p n = false := by
  constructor
  · have hlen : s.chunks.length > 0 := List.length_pos.mpr hc
    simp only [onstop]
    rw [if_pos hlen]
  · simp only [processAudio]
    rcases p with _ | _
    · simp [hn]
    · simp

/-- C1 witness: the amended statement at the concrete 100-byte cycle. -/
theorem c1_witness :
    (onstop recordingState).2 = some recordingState.chunks.sum ∧
      processAudio false 100 = false :=
  c1_amended_size_filter_in_consumer recordingState false 100 (by decide) (by decide)

/-! ## Claim C6: idempotent finalize per cycle -/

/-- C6: calling stopRecording a second time while the recorder is already
finalizing (the first call issued a MediaRecorder stop) is a no-op: the
state is unchanged and no second stop — hence no second onstop event and no
second Segment Consumer invocation — is issued for that cycle. -/
theorem c6_stop_idempotent (s : SessionState)
    (h : (stopRecordingStep s).2 = true) :
    stopRecordingStep (stopRecordingStep s).1 = ((stopRecordingStep s).1, false) := by
  by_cases hp : s.isProcessing = true
  · simp [stopRecordingStep, hp] at h
  · by_cases ha : s.hasRecorder && s.recorderActive
    · simp [stopRecordingStep, hp, ha]
    · simp [stopRecordingStep, hp, ha] at h

/-- C6 witness: the second stop request on the concrete mid-recording state
is a no-op. -/
theorem c6_witness :
    stopRecordingStep (stopRecordingStep recordingState).1 =
      ((stopRecordingStep recordingState).1, false) :=
  c6_stop_idempotent recordingState (by decide)

/-! ## Claim C8: encoder fault handling -/

/-- C8 counterexample: on an encoder error during the concrete mid-recording
cycle, the caller is not notified — the onerror handler only logs and tears
the session down, unlike acquisition errors, which are thrown to the
caller. -/
theorem c8_counterexample : ¬ ((onerror recordingState).2 = true) := by
  decide

/-- C8 (amended): an encoder error during capture triggers full session
teardown — the stream, audio context, analyser and recorder handles are all
released/cleared and the buffered chunks of the in-flight segment are
discarded without being forwarded (onerror produces no consumer
invocation) — but the caller is not notified: the error is only logged,
not delivered on the acquisition-error channel. -/
theorem c8_amended_teardown_no_notify (s : SessionState) :
    (onerror s).1.hasStream = false ∧ (onerror s).1.hasContext = false ∧
    (onerror s).1.hasAnalyser = false ∧ (onerror s).1.hasRecorder = false ∧
    (onerror s).1.isRecording = false ∧ (onerror s).1.chunks = [] ∧
    (onerror s).2 = false := by
  refine ⟨rfl, rfl, rfl, rfl, rfl, rfl, rfl⟩

/-! ## Claim C10: empty-buffer finalize -/

/-- C10: a recording cycle that finalizes with zero accumulated chunks
never invokes the Segment Consumer callback, and the per-cycle partial
cleanup still runs: the recording flag is cleared, the chunk buffer stays
empty, the processing flag is cleared and the recorder handle dropped. -/
theorem c10_empty_finalize (s : SessionState) (h : s.chunks = []) :
    (onstop s).2 = none ∧ (onstop s).1.isRecording = false ∧
    (onstop s).1.chunks = [] ∧ (onstop s).1.isProcessing = false ∧
    (onstop s).1.hasRecorder = false := by
  have hlen : ¬ ({ s with isRecording := false } : SessionState).chunks.length > 0 := by
    simp [h]
  simp only [onstop]
  rw [if_neg hlen]
  exact ⟨rfl, rfl, rfl, rfl, rfl⟩

/-- C10 witness: the empty-buffer finalize at the concrete recording state
whose buffer is empty. -/
theorem c10_witness :
    (onstop recordingEmptyState).2 = none ∧
    (onstop recordingEmptyState).1.isRecording = false ∧
    (onstop recordingEmptyState).1.chunks = [] ∧
    (onstop recordingEmptyState).1.isProcessing = false ∧
    (onstop recordingEmptyState).1.hasRecorder = false :=
  c10_empty_finalize recordingEmptyState (by decide)

/-! ## Claim C2: hysteresis gate step function -/

/-- C2: the Hysteresis Gate step function satisfies, on a listening session
with a live analyser: in Armed state (not recording) a reading at or above
threshold transitions to Recording and requests recorder start; in
Recording state a reading below threshold starts a single silence timer if
none is pending (and starts no second one when one is); a reading back at
or above threshold cancels the timer with no other state change, still
Recording; and when the silence timer fires while recording, a recorder
stop is issued and the session transitions Recording to Armed (recording
flag cleared, listening unchanged). -/
theorem c2_gate_step_behavior (θ dB : ℚ) (s : SessionState)
    (hA : s.hasAnalyser = true) (hL : s.isListening = true) :
    (s.isRecording = false → s.isProcessing = false → θ ≤ dB →
      (detectSilence θ dB s).1.isRecording = true ∧ (detectSilence θ dB s).2 = true) ∧
    (s.isRecording = true → dB < θ → s.silenceTimer = false →
      (detectSilence θ dB s).1 = { s with silenceTimer := true } ∧
      (detectSilence θ dB s).2 = false) ∧
    (s.isRecording = true → dB < θ → s.silenceTimer = true →
      detectSilence θ dB s = (s, false)) ∧
    (s.isRecording = true → θ ≤ dB →
      detectSilence θ dB s = ({ s with silenceTimer := false }, false)) ∧
    (s.isRecording = true → s.silenceTimer = true → s.isProcessing = false →
      s.hasRecorder = true → s.recorderActive = true →
      (stopRecordingStep s).2 = true ∧
      (fireSilenceTimer s).1.isRecording = false ∧
      (fireSilenceTimer s).1.isListening = s.isListening) := by
  refine ⟨?_, ?_, ?_, ?_, ?_⟩
  · intro hR hP hle
    have hlt : ¬ dB < θ := not_lt.mpr hle
    simp [detectSilence, hA, hL, hlt, hR, startRecording, hP]
  · intro hR hlt hT
    simp [detectSilence, hA, hL, hlt, hR, hT]
  · intro hR hlt hT
    simp [detectSilence, hA, hL, hlt, hR, hT]
  · intro hR hle
    have hlt : ¬ dB < θ := not_lt.mpr hle
    simp [detectSilence, hA, hL, hlt, hR]
  · intro hR hT hP hRec hAct
    refine ⟨?_, ?_, ?_⟩
    · simp [stopRecordingStep, hP, hRec, hAct]
    · simp [fireSilenceTimer, hT, hR, stopRecordingSync, stopRecordingStep, hP, hRec, hAct,
        onstop, cleanup]
      split <;> rfl
    · simp [fireSilenceTimer, hT, hR, stopRecordingSync, stopRecordingStep, hP, hRec, hAct,
        onstop, cleanup]
      split <;> rfl

/-- C2 witness: at threshold -50 dB, a -42 dB reading in the concrete Armed
state transitions to Recording with a recorder start request. -/
theorem c2_witness :
    (detectSilence (-50) (-42) armedState).1.isRecording = true ∧
    (detectSilence (-50) (-42) armedState).2 = true := by
  have h := c2_gate_step_behavior (-50) (-42) armedState (by decide) (by decide)
  exact h.1 (by decide) (by decide) (by norm_num)

/-! ## Claim C3: threshold tie-break -/

/-- Helper: startRecording never changes the pending-silence-timer flag. -/
theorem startRecording_silenceTimer (s : SessionState) :
    (startRecording s).1.silenceTimer = s.silenceTimer := by
  unfold startRecording
  split
  · rfl
  · dsimp only
    split <;> rfl

/-- Helper: a gate tick whose reading equals the threshold never leaves a
silence timer pending, from any state without one. -/
theorem tickAtThresholdTimerOff (θ : ℚ) (s : SessionState)
    (hT : s.silenceTimer = false) :
    (detectSilence θ θ s).1.silenceTimer = false := by
  have hlt : ¬ (θ < θ) := lt_irrefl θ
  by_cases hG : (!s.hasAnalyser || !s.isListening) = true
  · simp [detectSilence, hG, hT]
  · by_cases hSR : (!s.isRecording && s.isListening) = true
    · simp [detectSilence, hG, hlt, hSR, startRecording_silenceTimer]
    · simp [detectSilence, hG, hlt, hSR]

/-- Helper: over any sequence of readings all exactly at the threshold, the
silence timer stays off. -/
theorem runTicks_timer_off (θ : ℚ) (readings : List ℚ)
    (hall : ∀ r ∈ readings, r = θ) :
    ∀ s : SessionState, s.silenceTimer = false →
      (runTicks θ s readings).silenceTimer = false := by
  induction readings with
  | nil => intro s hT; exact hT
  | cons r rs ih =>
    intro s hT
    have hr : r = θ := hall r (List.mem_cons_self r rs)
    have hall2 : ∀ x ∈ rs, x = θ := fun x hx => hall x (List.mem_cons_of_mem r hx)
    have h1 : (detectSilence θ r s).1.silenceTimer = false := by
      rw [hr]
      exact tickAtThresholdTimerOff θ s hT
    exact ih hall2 (detectSilence θ r s).1 h1

/-- C3: the gate compares with strict less-than for silence, so a reading
exactly equal to the threshold falls in the voice branch: over any input
sequence consisting only of readings exactly at the threshold the gate
never starts the silence countdown (the timer flag stays off), and from an
Armed ready state an at-threshold reading requests recorder start, i.e. is
treated as voice. -/
theorem c3_threshold_tie_break (θ : ℚ) (s : SessionState) (readings : List ℚ)
    (hT : s.silenceTimer = false) (hall : ∀ r ∈ readings, r = θ) :
    (runTicks θ s readings).silenceTimer = false ∧
    (s.hasAnalyser = true → s.isListening = true → s.isRecording = false →
      s.isProcessing = false → (detectSilence θ θ s).2 = true) := by
  constructor
  · exact runTicks_timer_off θ readings hall s hT
  · intro hA hL hR hP
    have hlt : ¬ (θ < θ) := lt_irrefl θ
    simp [detectSilence, hA, hL, hR, hlt]

/-- C3 witness: with threshold -40 dB, the sequence -40, -40, -40 from the
concrete Armed state never starts the silence countdown, and the first
at-threshold reading counts as voice. -/
theorem c3_witness :
    (runTicks (-40) armedState [-40, -40, -40]).silenceTimer = false ∧
    (detectSilence (-40) (-40) armedState).2 = true := by
  have h := c3_threshold_tie_break (-40) armedState [-40, -40, -40] (by decide)
    (by intro r hr; fin_cases hr <;> rfl)
  exact ⟨h.1, h.2 (by decide) (by decide) (by decide) (by decide)⟩

/-! ## Claim C4: loudness estimator -/

/-- C4 counterexample: on an all-zero frame of 1024 bins the mean is 0 and
the estimator of line 204 yields negative infinity from log10(0) (modelled
as none); it is not clamped to the -90 dB floor the claim describes. -/
theorem c4_counterexample :
    loudnessDb (List.replicate 1024 0) ≠ some (-90 : ℝ) := by
  have h : frameAverage (List.replicate 1024 0) = 0 := by
    rw [frameAverage, List.sum_replicate]
    norm_num
  have hr : loudnessRatio (List.replicate 1024 0) = none := by
    rw [loudnessRatio, if_pos h]
  rw [loudnessDb, hr]
  intro hcontra
  exact Option.noConfusion hcontra

/-- C4 (amended): for every frame of 1024 byte-valued bins, the estimator
computes dB = 20 * log10(mean / 255) with no clamping: the result is the
negative infinity of log10(0) — modelled as none — exactly when every
sample is 0, and every finite result equals the formula and is at most
0 dB (the claimed -90 dB lower bound is not enforced anywhere). -/
theorem c4_amended_no_clamp (frame : List ℕ) (hlen : frame.length = 1024)
    (hbound : ∀ x ∈ frame, x ≤ 255) :
    (loudnessDb frame = none ↔ ∀ x ∈ frame, x = 0) ∧
    (∀ r : ℝ, loudnessDb frame = some r →
      r = 20 * Real.logb 10 ((frameAverage frame : ℝ) / 255) ∧ r ≤ 0) := by
  have hlq : (frame.length : ℚ) = 1024 := by rw [hlen]; norm_num
  have havg : frameAverage frame = (frame.sum : ℚ) / 1024 := by
    rw [frameAverage, hlq]
  have hzero : frameAverage frame = 0 ↔ ∀ x ∈ frame, x = 0 := by
    rw [havg, div_eq_zero_iff]
    constructor
    · intro h
      rcases h with h | h
      · exact List.sum_eq_zero_iff.mp (Nat.cast_eq_zero.mp h)
      · norm_num at h
    · intro h
      exact Or.inl (by exact_mod_cast congrArg (Nat.cast : ℕ → ℚ) (List.sum_eq_zero_iff.mpr h))
  constructor
  · rw [loudnessDb, loudnessRatio]
    by_cases h0 : frameAverage frame = 0
    · rw [if_pos h0]
      simpa using hzero.mp h0
    · rw [if_neg h0]
      refine iff_of_false (by simp) ?_
      intro hc
      exact h0 (hzero.mpr hc)
  · intro r hr
    by_cases h0 : frameAverage frame = 0
    · rw [loudnessDb, loudnessRatio, if_pos h0] at hr
      exact Option.noConfusion hr
    · rw [loudnessDb, loudnessRatio, if_neg h0] at hr
      have hval : 20 * Real.logb 10 ((frameAverage frame / 255 : ℚ) : ℝ) = r := by
        simpa using hr
      have hcast : ((frameAverage frame / 255 : ℚ) : ℝ) = (frameAverage frame : ℝ) / 255 := by
        push_cast
        ring
      have hge : (0 : ℚ) ≤ frameAverage frame := by
        rw [havg]
        positivity
      have hle : frameAverage frame ≤ 255 := by
        rw [havg, div_le_iff₀ (by norm_num : (0:ℚ) < 1024)]
        have hsum : frame.sum ≤ 1024 * 255 := by
          have hs := List.sum_le_card_nsmul frame 255 hbound
          rwa [hlen, smul_eq_mul] at hs
        calc (frame.sum : ℚ) ≤ ((1024 * 255 : ℕ) : ℚ) := by exact_mod_cast hsum
          _ = 255 * 1024 := by norm_num
      have hx0 : (0:ℝ) ≤ (frameAverage frame : ℝ) / 255 :=
        div_nonneg (by exact_mod_cast hge) (by norm_num)
      have hx1 : (frameAverage frame : ℝ) / 255 ≤ 1 := by
        rw [div_le_one (by norm_num : (0:ℝ) < 255)]
        exact_mod_cast hle
      have hlogb : Real.logb 10 ((frameAverage frame : ℝ) / 255) ≤ 0 :=
        Real.logb_nonpos (by norm_num) hx0 hx1
      constructor
      · rw [← hval, hcast]
      · rw [← hval, hcast]
        calc 20 * Real.logb 10 ((frameAverage frame : ℝ) / 255) ≤ 20 * 0 :=
              mul_le_mul_of_nonneg_left hlogb (by norm_num)
          _ = 0 := by ring

/-- C4 witness: the full-scale frame (all bins 255) satisfies the frame
bounds and gets a finite (non-none) estimate by the amended theorem. -/
theorem c4_witness : ¬ (loudnessDb (List.replicate 1024 255) = none) := by
  have h := c4_amended_no_clamp (List.replicate 1024 255) (List.length_replicate 1024 255)
    (by intro x hx; rw [List.eq_of_mem_replicate hx])
  intro hn
  have h255 : (255 : ℕ) ∈ List.replicate 1024 255 :=
    List.mem_replicate.mpr ⟨by norm_num, rfl⟩
  have := h.1.mp hn 255 h255
  norm_num at this

/-! ## Claim C5: smoothing time constant -/

/-- C5: the analysis node is always configured with the hard-coded
smoothing time constant 0.85, for every settings snapshot; in particular
the Coffee Shop preset supplies 0.92 yet the configured node differs from
it — the Settings Provider value is never applied, not even on a node
(re)configuration. -/
theorem c5_smoothing_ignored :
    (∀ settings : VoiceSettings,
      (configureAnalyser settings).smoothingTimeConstant = 85/100) ∧
    moderatePreset.smoothingTimeConstant = 92/100 ∧
    (configureAnalyser moderatePreset).smoothingTimeConstant ≠
      moderatePreset.smoothingTimeConstant := by
  refine ⟨fun _ => rfl, rfl, by norm_num [configureAnalyser, moderatePreset]⟩

/-! ## Claim C7: stopListening frame conditions -/

/-- C7: on a session holding its stream, context and analyser, stopListening
(with the finalize it forces) clears the listening flag, cancels any
pending silence timer, finalizes an in-progress recording, and suspends but
retains the stream, context and analyser; a startListening immediately
after resumes the suspended context and starts listening without
requesting device permission again. -/
theorem c7_stop_listening_frame (s : SessionState)
    (hS : s.hasStream = true) (hC : s.hasContext = true) (hA : s.hasAnalyser = true) :
    (stopListeningSync s).1.isListening = false ∧
    (stopListeningSync s).1.silenceTimer = false ∧
    (stopListeningSync s).1.hasStream = true ∧
    (stopListeningSync s).1.hasContext = true ∧
    (stopListeningSync s).1.hasAnalyser = true ∧
    (stopListeningSync s).1.contextSuspended = true ∧
    (s.isRecording = true → s.hasRecorder = true → s.recorderActive = true →
      (stopListeningSync s).1.isRecording = false) ∧
    (startListening (stopListeningSync s).1).2 = false ∧
    (startListening (stopListeningSync s).1).1.isListening = true ∧
    (startListening (stopListeningSync s).1).1.contextSuspended = false := by
  by_cases hc : (s.isRecording && s.hasRecorder && s.recorderActive) = true
  · have hmain : (stopListeningSync s).1 =
        (onstop { s with recorderActive := false, isListening := false,
                         contextSuspended := true, silenceTimer := false }).1 := by
      simp [stopListeningSync, stopListening, hc, hC]
    rw [hmain]
    unfold onstop
    dsimp only
    split
    · simp [cleanup, startListening, hS, hC, hA]
    · simp [cleanup, startListening, hS, hC, hA]
  · have hmain : (stopListeningSync s).1 =
        { s with isListening := false, contextSuspended := true, silenceTimer := false } := by
      simp [stopListeningSync, stopListening, hc, hC]
    rw [hmain]
    refine ⟨rfl, rfl, hS, hC, hA, rfl, ?_, ?_⟩
    · intro h1 h2 h3
      rw [Bool.and_eq_true, Bool.and_eq_true] at hc
      exact absurd ⟨⟨h1, h2⟩, h3⟩ hc
    · simp [startListening, hS, hC, hA]

/-- C7 witness: the frame conditions at the concrete mid-recording state,
with the force-finalize conclusion discharged. -/
theorem c7_witness :
    (stopListeningSync recordingState).1.isListening = false ∧
    (stopListeningSync recordingState).1.silenceTimer = false ∧
    (stopListeningSync recordingState).1.hasStream = true ∧
    (stopListeningSync recordingState).1.hasContext = true ∧
    (stopListeningSync recordingState).1.hasAnalyser = true ∧
    (stopListeningSync recordingState).1.contextSuspended = true ∧
    (stopListeningSync recordingState).1.isRecording = false ∧
    (startListening (stopListeningSync recordingState).1).2 = false ∧
    (startListening (stopListeningSync recordingState).1).1.isListening = true ∧
    (startListening (stopListeningSync recordingState).1).1.contextSuspended = false := by
  have h := c7_stop_listening_frame recordingState (by decide) (by decide) (by decide)
  exact ⟨h.1, h.2.1, h.2.2.1, h.2.2.2.1, h.2.2.2.2.1, h.2.2.2.2.2.1,
    h.2.2.2.2.2.2.1 (by decide) (by decide) (by decide), h.2.2.2.2.2.2.2.1,
    h.2.2.2.2.2.2.2.2.1, h.2.2.2.2.2.2.2.2.2⟩

/-! ## Claim C9: recording implies listening -/

/-- Helper: full or partial cleanup always leaves the invariant (recording
flag is cleared). -/
theorem sessInv_cleanup (full : Bool) (s : SessionState) : SessInv (cleanup full s) := by
  intro hR
  simp [cleanup] at hR

/-- Helper: the onstop handler leaves the invariant. -/
theorem sessInv_onstop (s : SessionState) : SessInv (onstop s).1 := by
  unfold onstop
  dsimp only
  split
  · exact sessInv_cleanup false _
  · exact sessInv_cleanup false _

/-- Helper: a stopRecording run to completion preserves the invariant. -/
theorem sessInv_stopRecordingSync (s : SessionState) (h : SessInv s) :
    SessInv (stopRecordingSync s).1 := by
  unfold stopRecordingSync stopRecordingStep
  by_cases hp : s.isProcessing = true
  · simpa [hp] using h
  · by_cases ha : (s.hasRecorder && s.recorderActive) = true
    · simp only [hp, ha]
      simpa using sessInv_onstop _
    · simp only [hp, ha]
      simpa using sessInv_cleanup false s

/-- Helper: the silence-timer callback preserves the invariant. -/
theorem sessInv_fireSilenceTimer (s : SessionState) (h : SessInv s) :
    SessInv (fireSilenceTimer s).1 := by
  unfold fireSilenceTimer
  split
  · exact sessInv_stopRecordingSync s h
  · exact h

/-- Helper: changing only the silence-timer flag preserves the invariant. -/
theorem sessInv_timerSet (s : SessionState) (b : Bool) (h : SessInv s) :
    SessInv { s with silenceTimer := b } := h

/-- Helper: startRecording invoked on a listening session preserves the
invariant. -/
theorem sessInv_startRecording (s : SessionState) (h : SessInv s)
    (hL : s.isListening = true) : SessInv (startRecording s).1 := by
  by_cases hg : (s.isProcessing || s.isRecording) = true
  · simpa [startRecording, hg] using h
  · by_cases hn : (!s.hasStream || !s.hasContext || !s.hasAnalyser) = true
    · intro _
      simp [startRecording, hg, hn, hL]
    · intro _
      simp [startRecording, hg, hn, hL]

/-- Helper: a gate tick preserves the invariant — the gate only starts a
recording when the session is listening. -/
theorem sessInv_detectSilence (θ dB : ℚ) (s : SessionState) (h : SessInv s) :
    SessInv (detectSilence θ dB s).1 := by
  by_cases hG : (!s.hasAnalyser || !s.isListening) = true
  · simpa [detectSilence, hG] using h
  · by_cases hlt : dB < θ
    · by_cases ht : (!s.silenceTimer && s.isRecording) = true
      · have heq : (detectSilence θ dB s).1 = { s with silenceTimer := true } := by
          simp [detectSilence, hG, hlt, ht]
        rw [heq]
        exact sessInv_timerSet s true h
      · simpa [detectSilence, hG, hlt, ht] using h
    · by_cases hv : (!s.isRecording && s.isListening) = true
      · have hL1 : s.isListening = true := (Bool.and_eq_true _ _ |>.mp hv).2
        have heq : (detectSilence θ dB s).1 =
            (startRecording { s with silenceTimer := false }).1 := by
          simp [detectSilence, hG, hlt, hv]
        rw [heq]
        exact sessInv_startRecording _ (sessInv_timerSet s false h) hL1
      · have heq : (detectSilence θ dB s).1 = { s with silenceTimer := false } := by
          simp [detectSilence, hG, hlt, hv]
        rw [heq]
        exact sessInv_timerSet s false h

/-- Helper: startListening preserves the invariant (it only raises the
listening flag and acquires resources). -/
theorem sessInv_startListening (s : SessionState) (h : SessInv s) :
    SessInv (startListening s).1 := by
  by_cases hn : (!s.hasStream || !s.hasContext || !s.hasAnalyser) = true
  · intro hR
    simp only [startListening, hn, if_true] at hR ⊢
    have := h hR
    simp_all
  · by_cases hsus : s.contextSuspended = true
    · intro hR
      simp only [startListening, hn, hsus] at hR ⊢
      have := h hR
      simp_all
    · intro hR
      simp only [startListening, hn, hsus] at hR ⊢
      have := h hR
      simp_all

/-- Helper: stopListening run to completion preserves the invariant: when a
recording is in progress the (strengthened) invariant guarantees the
recorder is live, so the forced finalize clears the recording flag. -/
theorem sessInv_stopListeningSync (s : SessionState) (h : SessInv s) :
    SessInv (stopListeningSync s).1 := by
  by_cases hc : (s.isRecording && s.hasRecorder && s.recorderActive) = true
  · have hiss : stopListening s =
        (let s2 : SessionState :=
          { s with recorderActive := false, isListening := false };
         let s3 := if s2.hasContext then { s2 with contextSuspended := true } else s2;
         ({ s3 with silenceTimer := false }, true)) := by
      simp [stopListening, hc]
    have heq : (stopListeningSync s).1 = (onstop (stopListening s).1).1 := by
      simp [stopListeningSync, hiss]
    rw [heq]
    exact sessInv_onstop _
  · intro hR
    have hRs : s.isRecording = true := by
      have h1 := hR
      simp only [stopListeningSync, stopListening, hc] at h1
      rw [apply_ite SessionState.isRecording] at h1
      simpa using h1
    have hfacts := h hRs
    rw [Bool.and_eq_true, Bool.and_eq_true] at hc
    exact absurd ⟨⟨hRs, hfacts.2.1⟩, hfacts.2.2.1⟩ hc

/-- Helper: every gate-driven operation (everything except a direct public
startRecording call) preserves the invariant. -/
theorem sessInv_step (θ : ℚ) (s : SessionState) (op : Op)
    (hop : op ≠ Op.pressStartRecording) (h : SessInv s) : SessInv (step θ s op) := by
  cases op with
  | tick dB => exact sessInv_detectSilence θ dB s h
  | timerFires => exact sessInv_fireSilenceTimer s h
  | pressStartRecording => exact absurd rfl hop
  | pressStopRecording => exact sessInv_stopRecordingSync s h
  | pressStartListening => exact sessInv_startListening s h
  | pressStopListening => exact sessInv_stopListeningSync s h

/-- Helper: the invariant is preserved along any gate-driven operation
sequence. -/
theorem sessInv_runOps (θ : ℚ) (ops : List Op)
    (hops : ∀ op ∈ ops, op ≠ Op.pressStartRecording) :
    ∀ s : SessionState, SessInv s → SessInv (runOps θ s ops) := by
  induction ops with
  | nil => intro s h; exact h
  | cons op rest ih =>
    intro s h
    have h1 : SessInv (step θ s op) :=
      sessInv_step θ s op (hops op (List.mem_cons_self op rest)) h
    exact ih (fun o ho => hops o (List.mem_cons_of_mem op ho)) (step θ s op) h1

/-- C9 counterexample: a single direct call to the public startRecording
operation from the initial (non-listening) state leaves the session
recording while not listening — the claimed invariant fails for operation
sequences that include direct startRecording calls, because startRecording
never checks the listening flag. -/
theorem c9_counterexample :
    (runOps (-50) initState [Op.pressStartRecording]).isRecording = true ∧
    (runOps (-50) initState [Op.pressStartRecording]).isListening = false := by
  constructor <;> rfl

/-- C9 (amended): along every sequence of gate-driven operations — ticks,
silence-timer firings, stopRecording, startListening, stopListening, but
no direct public startRecording call — every reachable state with the
recording flag set also has the listening flag set. -/
theorem c9_amended_gate_invariant (θ : ℚ) (ops : List Op)
    (hops : ∀ op ∈ ops, op ≠ Op.pressStartRecording)
    (h : (runOps θ initState ops).isRecording = true) :
    (runOps θ initState ops).isListening = true :=
  (sessInv_runOps θ ops hops initState (by intro hx; simp [initState] at hx) h).1

/-- C9 witness: after startListening and one voice tick at -30 dB against a
-50 dB threshold, the session is recording and (by the amended theorem)
listening. -/
theorem c9_witness :
    (runOps (-50) initState [Op.pressStartListening, Op.tick (-30)]).isListening = true :=
  c9_amended_gate_invariant (-50) [Op.pressStartListening, Op.tick (-30)]
    (by intro op hop; fin_cases hop <;> simp) (by decide)
